import Mathlib

/-!
Formal model of the adaptive authentication risk engine of BetterAuthRust.

The engine implementation appears in src/docs/endpoints.md (the sequential
analyze_login_risk, record_login and the login integration) and in
src/docs/performance_optimizations.md (the parallel analyze_login_risk and
get_failed_attempts).  Floating-point distances and hour differences are
modelled over ℚ.  The great-circle distance function calculate_distance and
the odd-time helpers (analyze_user_normal_hours / is_normal_time) are only
referenced, never defined, in the repository, so the model is parametric in
them; the weight and threshold constants RISK_WEIGHT_* / RISK_THRESHOLD_* are
likewise undefined in the repository and are collected in a configuration
structure whose defaults follow the specification.
-/

namespace BetterAuth

/-- Geographic location attached to a login (src/src/types/risk-scoring.ts). -/
structure GeoLocation where
  latitude : ℚ
  longitude : ℚ
  country : String
  city : String
deriving DecidableEq

/-- A login record as stored in history (src/src/types/risk-scoring.ts and the
LoginRecord literal in src/docs/endpoints.md); the timestamp is in seconds. -/
structure LoginRecord where
  timestamp : ℤ
  ip_address : String
  location : Option GeoLocation
  device_id : String
  user_agent : String
  success : Bool
deriving DecidableEq

/-- A weighted, named risk signal (src/src/types/risk-scoring.ts). -/
structure RiskFactor where
  name : String
  description : String
  weight : ℕ
deriving DecidableEq

/-- Recommended action of an analysis (src/src/types/risk-scoring.ts). -/
inductive RiskAction where
  | Allow
  | RequireMfa
  | Block
deriving DecidableEq

/-- Result of a risk analysis (src/src/types/risk-scoring.ts). -/
structure RiskAnalysisResult where
  score : ℕ
  factors : List RiskFactor
  action : RiskAction
deriving DecidableEq

/-- Per-identity failed-attempt counter (RiskScoringState.failed_attempts in
src/docs/performance_optimizations.md; fields per the data model). -/
structure FailedAttempts where
  count : ℕ
  window_start : ℤ
deriving DecidableEq

/-- The mutable risk-scoring state: per-user login history and per-identity
failed-attempt counters (src/docs/performance_optimizations.md).  The hash
maps are modelled as association lists with string keys. -/
structure RiskScoringState where
  login_history : List (String × List LoginRecord)
  failed_attempts : List (String × FailedAttempts)
deriving DecidableEq

/-- The weight and threshold constants RISK_WEIGHT_* / RISK_THRESHOLD_* used by
analyze_login_risk; they are referenced but never defined in the repository,
so they are gathered in a configuration record. -/
structure RiskConfig where
  risk_weight_new_device : ℕ
  risk_weight_new_location : ℕ
  risk_weight_impossible_travel : ℕ
  risk_weight_odd_time : ℕ
  risk_threshold_mfa : ℕ
  risk_threshold_block : ℕ
deriving DecidableEq

/-- The illustrative default weights and thresholds (weights 20/15/30/15,
MFA threshold 30, block threshold 70). -/
def defaultRiskConfig : RiskConfig :=
  { risk_weight_new_device := 20
    risk_weight_new_location := 15
    risk_weight_impossible_travel := 30
    risk_weight_odd_time := 15
    risk_threshold_mfa := 30
    risk_threshold_block := 70 }

/-- First-match association-list lookup, the model of HashMap::get. -/
def alistLookup {β : Type} : List (String × β) → String → Option β
  | [], _ => none
  | (k, v) :: rest, key => if k = key then some v else alistLookup rest key

/-- Model of login_history.entry(user_id).or_insert_with(Vec::new).push(record):
append the record to the user's entry, creating the entry if absent. -/
def pushRecord : List (String × List LoginRecord) → String → LoginRecord →
    List (String × List LoginRecord)
  | [], user_id, record => [(user_id, [record])]
  | (k, h) :: rest, user_id, record =>
    if k = user_id then (k, h ++ [record]) :: rest
    else (k, h) :: pushRecord rest user_id record

/-- record_login from src/docs/endpoints.md: push the record onto the user's
history vector. -/
def record_login (state : RiskScoringState) (user_id : String)
    (record : LoginRecord) : RiskScoringState :=
  { state with login_history := pushRecord state.login_history user_id record }

/-- A point-in-time view of a user's history: the stored vector, empty when the
user has no entry (the read that analyze_login_risk performs). -/
def snapshot (state : RiskScoringState) (user_id : String) : List LoginRecord :=
  (alistLookup state.login_history user_id).getD []

/-- get_failed_attempts from src/docs/performance_optimizations.md: the stored
counter's count, or 0 when the identity has no entry. -/
def get_failed_attempts (state : RiskScoringState)
    (username_or_email : String) : ℕ :=
  ((alistLookup state.failed_attempts username_or_email).map
    FailedAttempts.count).getD 0

/-- The known-device test of analyze_login_risk:
history.iter().any(|r| r.device_id == login_info.device_id). -/
def knownDevice (history : List LoginRecord) (login_info : LoginRecord) : Bool :=
  history.any (fun r => r.device_id == login_info.device_id)

/-- The known-location test of analyze_login_risk:
some historical record has a location within 50 km of the current one.
Parametric in the distance function calculate_distance. -/
def knownLocation (dist : GeoLocation → GeoLocation → ℚ)
    (history : List LoginRecord) (current_location : GeoLocation) : Bool :=
  (history.filterMap LoginRecord.location).any
    (fun loc => decide (dist loc current_location < 50))

/-- The latest geolocated login of analyze_login_risk:
history.iter().filter_map(location).max_by_key(timestamp); like Rust's
max_by_key it keeps the later element on timestamp ties. -/
def latestGeoLogin (history : List LoginRecord) : Option (ℤ × GeoLocation) :=
  history.foldl
    (fun best r =>
      match r.location with
      | none => best
      | some loc =>
        match best with
        | none => some (r.timestamp, loc)
        | some (ts, prev) =>
          if ts ≤ r.timestamp then some (r.timestamp, loc) else some (ts, prev))
    none

/-- Elapsed time in hours between the previous login and the attempt:
(login_info.timestamp - prev_ts).num_seconds() as f64 / 3600.0. -/
def hoursDiff (attempt_ts prev_ts : ℤ) : ℚ :=
  ((attempt_ts - prev_ts : ℤ) : ℚ) / 3600

/-- The impossible-travel test of analyze_login_risk: the latest geolocated
login implies a speed above 1000 km/h, guarded by hours_diff > 0. -/
def impossibleTravel (dist : GeoLocation → GeoLocation → ℚ)
    (history : List LoginRecord) (attempt_ts : ℤ)
    (current_location : GeoLocation) : Bool :=
  match latestGeoLogin history with
  | none => false
  | some (prev_ts, prev_loc) =>
    decide (0 < hoursDiff attempt_ts prev_ts) &&
      decide (1000 < dist prev_loc current_location / hoursDiff attempt_ts prev_ts)

/-- The new_device factor pushed by analyze_login_risk. -/
def newDeviceFactor (cfg : RiskConfig) : RiskFactor :=
  ⟨"new_device", "Login from a new device", cfg.risk_weight_new_device⟩

/-- The new_location factor pushed by analyze_login_risk. -/
def newLocationFactor (cfg : RiskConfig) : RiskFactor :=
  ⟨"new_location", "Login from a new location", cfg.risk_weight_new_location⟩

/-- The impossible_travel factor pushed by analyze_login_risk. -/
def impossibleTravelFactor (cfg : RiskConfig) : RiskFactor :=
  ⟨"impossible_travel", "Impossible travel detected", cfg.risk_weight_impossible_travel⟩

/-- The odd_time factor pushed by analyze_login_risk. -/
def oddTimeFactor (cfg : RiskConfig) : RiskFactor :=
  ⟨"odd_time", "Login at unusual time", cfg.risk_weight_odd_time⟩

/-- The factor list built by the non-empty-history branch of
analyze_login_risk, in push order: new_device, then (when the attempt has a
location) new_location and impossible_travel, then odd_time.  The odd-time
helpers analyze_user_normal_hours / is_normal_time are absent from the
repository, so the test is the parameter isNormalTime. -/
def riskFactorsOf (cfg : RiskConfig) (dist : GeoLocation → GeoLocation → ℚ)
    (isNormalTime : ℤ → List LoginRecord → Bool)
    (history : List LoginRecord) (login_info : LoginRecord) : List RiskFactor :=
  (if knownDevice history login_info then [] else [newDeviceFactor cfg]) ++
    ((match login_info.location with
      | some current_location =>
        (if knownLocation dist history current_location then []
         else [newLocationFactor cfg]) ++
          (if impossibleTravel dist history login_info.timestamp current_location
           then [impossibleTravelFactor cfg] else [])
      | none => []) ++
      (if isNormalTime login_info.timestamp history then []
       else [oddTimeFactor cfg]))

/-- The score-to-action mapping shared by both versions of analyze_login_risk:
Block at or above the block threshold, else RequireMfa at or above the MFA
threshold, else Allow. -/
def actionForScore (cfg : RiskConfig) (score : ℕ) : RiskAction :=
  if score ≥ cfg.risk_threshold_block then RiskAction.Block
  else if score ≥ cfg.risk_threshold_mfa then RiskAction.RequireMfa
  else RiskAction.Allow

/-- The sequential analyze_login_risk of src/docs/endpoints.md: look up the
user's history, run the analyzers when it is present and non-empty, score as
min(100, total weight) (0 when no factor fired), and map the score to an
action. -/
def analyze_login_risk (cfg : RiskConfig) (dist : GeoLocation → GeoLocation → ℚ)
    (isNormalTime : ℤ → List LoginRecord → Bool) (state : RiskScoringState)
    (user_id : String) (login_info : LoginRecord) : RiskAnalysisResult :=
  let risk_factors :=
    match alistLookup state.login_history user_id with
    | some history =>
      if history.isEmpty then []
      else riskFactorsOf cfg dist isNormalTime history login_info
    | none => []
  let total_weight := (risk_factors.map RiskFactor.weight).sum
  let score := if risk_factors.isEmpty then 0 else min 100 total_weight
  { score := score
    factors := risk_factors
    action := actionForScore cfg score }

/-- Modelled from the spec: check_new_device, named in the parallel analyzer
list of src/docs/performance_optimizations.md but with its body absent from
the repository; per the analyzer table it fires exactly when the attempt's
device id matches no historical device id. -/
def check_new_device (cfg : RiskConfig) (history : List LoginRecord)
    (login_info : LoginRecord) : Option RiskFactor :=
  if knownDevice history login_info then none else some (newDeviceFactor cfg)

/-- Modelled from the spec: check_new_location, named in the parallel analyzer
list of src/docs/performance_optimizations.md but with its body absent from
the repository; per the analyzer table it fires exactly when the attempt has a
location and no historical location lies within 50 km of it. -/
def check_new_location (cfg : RiskConfig) (dist : GeoLocation → GeoLocation → ℚ)
    (history : List LoginRecord) (login_info : LoginRecord) : Option RiskFactor :=
  match login_info.location with
  | some current_location =>
    if knownLocation dist history current_location then none
    else some (newLocationFactor cfg)
  | none => none

/-- Modelled from the spec: check_impossible_travel, named in the parallel
analyzer list of src/docs/performance_optimizations.md but with its body
absent from the repository; per the analyzer table it fires exactly when the
attempt has a location and the latest geolocated login implies a speed above
1000 km/h. -/
def check_impossible_travel (cfg : RiskConfig)
    (dist : GeoLocation → GeoLocation → ℚ) (history : List LoginRecord)
    (login_info : LoginRecord) : Option RiskFactor :=
  match login_info.location with
  | some current_location =>
    if impossibleTravel dist history login_info.timestamp current_location
    then some (impossibleTravelFactor cfg) else none
  | none => none

/-- Modelled from the spec: check_odd_time, named in the parallel analyzer
list of src/docs/performance_optimizations.md but with its body absent from
the repository; it fires exactly when the attempt falls outside the user's
normal hours, i.e. when the abstract isNormalTime test is false. -/
def check_odd_time (cfg : RiskConfig)
    (isNormalTime : ℤ → List LoginRecord → Bool)
    (history : List LoginRecord) (login_info : LoginRecord) : Option RiskFactor :=
  if isNormalTime login_info.timestamp history then none
  else some (oddTimeFactor cfg)

/-- The parallel analyze_login_risk of src/docs/performance_optimizations.md:
return the cold-start result when the history is absent or empty, otherwise
collect the optional factors of the four analyzers in their list order, score
as min(100, total weight) and map the score to an action. -/
def analyze_login_risk_parallel (cfg : RiskConfig)
    (dist : GeoLocation → GeoLocation → ℚ)
    (isNormalTime : ℤ → List LoginRecord → Bool) (state : RiskScoringState)
    (user_id : String) (login_info : LoginRecord) : RiskAnalysisResult :=
  match alistLookup state.login_history user_id with
  | some history =>
    if history.isEmpty then ⟨0, [], RiskAction.Allow⟩
    else
      let risk_factors :=
        [check_new_device cfg history login_info,
         check_new_location cfg dist history login_info,
         check_impossible_travel cfg dist history login_info,
         check_odd_time cfg isNormalTime history login_info].filterMap id
      let total_weight := (risk_factors.map RiskFactor.weight).sum
      let score := min 100 total_weight
      { score := score
        factors := risk_factors
        action := actionForScore cfg score }
  | none => ⟨0, [], RiskAction.Allow⟩

/-- Modelled from the spec: should_block_login is called by the login route of
src/docs/endpoints.md but its body is absent from the repository; per the
policy mapping a login is blocked exactly when the analysis action is Block,
and the analysis is returned alongside. -/
def should_block_login (cfg : RiskConfig) (dist : GeoLocation → GeoLocation → ℚ)
    (isNormalTime : ℤ → List LoginRecord → Bool) (state : RiskScoringState)
    (user_id : String) (login_info : LoginRecord) : Bool × RiskAnalysisResult :=
  let risk_analysis := analyze_login_risk cfg dist isNormalTime state user_id login_info
  (decide (risk_analysis.action = RiskAction.Block), risk_analysis)

/-- The effective action of the login route of src/docs/endpoints.md: a
blocked login is forbidden; otherwise MFA is required when the analysis
recommends it or the user has standing MFA enabled
(require_mfa = risk_analysis.action == RequireMfa || user.mfa_enabled);
otherwise the login is allowed. -/
def login_effective_action (cfg : RiskConfig)
    (dist : GeoLocation → GeoLocation → ℚ)
    (isNormalTime : ℤ → List LoginRecord → Bool) (state : RiskScoringState)
    (user_id : String) (mfa_enabled : Bool) (login_info : LoginRecord) :
    RiskAction :=
  let p := should_block_login cfg dist isNormalTime state user_id login_info
  if p.1 then RiskAction.Block
  else if decide (p.2.action = RiskAction.RequireMfa) || mfa_enabled then
    RiskAction.RequireMfa
  else RiskAction.Allow

lemma score_if_isEmpty (l : List RiskFactor) :
    (if l.isEmpty then 0 else min 100 ((l.map RiskFactor.weight).sum)) =
      min 100 ((l.map RiskFactor.weight).sum) := by
  cases l <;> simp

lemma actionForScore_zero (cfg : RiskConfig)
    (hmfa : 0 < cfg.risk_threshold_mfa)
    (hord : cfg.risk_threshold_mfa ≤ cfg.risk_threshold_block) :
    actionForScore cfg 0 = RiskAction.Allow := by
  unfold actionForScore
  rw [if_neg (by omega), if_neg (by omega)]

/-- C1: for every user whose login history is empty (or absent), the risk
analysis returns exactly score = 0, an empty factor sequence, and
action = Allow (with the thresholds sanely ordered and the MFA threshold
positive, as in the default configuration). -/
theorem analyze_empty_history_cold_start (cfg : RiskConfig)
    (dist : GeoLocation → GeoLocation → ℚ)
    (isNormalTime : ℤ → List LoginRecord → Bool) (state : RiskScoringState)
    (user_id : String) (login_info : LoginRecord)
    (hhist : snapshot state user_id = [])
    (hmfa : 0 < cfg.risk_threshold_mfa)
    (hord : cfg.risk_threshold_mfa ≤ cfg.risk_threshold_block) :
    analyze_login_risk cfg dist isNormalTime state user_id login_info =
      ⟨0, [], RiskAction.Allow⟩ := by
  unfold snapshot at hhist
  unfold analyze_login_risk
  cases hl : alistLookup state.login_history user_id with
  | none =>
    simp only [hl]
    simp [actionForScore_zero cfg hmfa hord]
  | some h =>
    rw [hl] at hhist
    simp only [Option.getD_some] at hhist
    subst hhist
    simp only [hl]
    simp [actionForScore_zero cfg hmfa hord]

/-- Witness for C1 at a concrete user with no history and the default
configuration. -/
theorem analyze_empty_history_cold_start_witness :
    snapshot ⟨[], []⟩ "u" = [] ∧
      0 < defaultRiskConfig.risk_threshold_mfa ∧
      analyze_login_risk defaultRiskConfig (fun _ _ => 0) (fun _ _ => true)
          ⟨[], []⟩ "u" ⟨0, "ip", none, "dev", "ua", true⟩ =
        ⟨0, [], RiskAction.Allow⟩ :=
  ⟨rfl, by decide,
    analyze_empty_history_cold_start defaultRiskConfig (fun _ _ => 0)
      (fun _ _ => true) ⟨[], []⟩ "u" ⟨0, "ip", none, "dev", "ua", true⟩ rfl
      (by decide) (by decide)⟩

/-- C2: for every history and attempt, the returned score equals the sum of
the weights of the contributing factors capped at 100, and therefore always
satisfies score ≤ 100 (scores are naturals, so never negative). -/
theorem analyze_score_capped (cfg : RiskConfig)
    (dist : GeoLocation → GeoLocation → ℚ)
    (isNormalTime : ℤ → List LoginRecord → Bool) (state : RiskScoringState)
    (user_id : String) (login_info : LoginRecord) :
    (analyze_login_risk cfg dist isNormalTime state user_id login_info).score =
        min 100
          (((analyze_login_risk cfg dist isNormalTime state user_id
            login_info).factors.map RiskFactor.weight).sum) ∧
      (analyze_login_risk cfg dist isNormalTime state user_id login_info).score ≤
        100 := by
  have hs : (analyze_login_risk cfg dist isNormalTime state user_id
      login_info).score =
      if (analyze_login_risk cfg dist isNormalTime state user_id
          login_info).factors.isEmpty then 0
      else
        min 100
          (((analyze_login_risk cfg dist isNormalTime state user_id
            login_info).factors.map RiskFactor.weight).sum) := rfl
  rw [hs, score_if_isEmpty]
  exact ⟨rfl, Nat.min_le_left _ _⟩

/-- C3: the recommended action is determined by the two ordered thresholds:
Allow below the MFA threshold, RequireMfa from the MFA threshold up to below
the block threshold, Block at or above the block threshold. -/
theorem analyze_action_thresholds (cfg : RiskConfig)
    (dist : GeoLocation → GeoLocation → ℚ)
    (isNormalTime : ℤ → List LoginRecord → Bool) (state : RiskScoringState)
    (user_id : String) (login_info : LoginRecord)
    (hord : cfg.risk_threshold_mfa ≤ cfg.risk_threshold_block) :
    ((analyze_login_risk cfg dist isNormalTime state user_id login_info).score <
        cfg.risk_threshold_mfa →
      (analyze_login_risk cfg dist isNormalTime state user_id
        login_info).action = RiskAction.Allow) ∧
    (cfg.risk_threshold_mfa ≤
        (analyze_login_risk cfg dist isNormalTime state user_id
          login_info).score →
      (analyze_login_risk cfg dist isNormalTime state user_id
          login_info).score < cfg.risk_threshold_block →
      (analyze_login_risk cfg dist isNormalTime state user_id
        login_info).action = RiskAction.RequireMfa) ∧
    (cfg.risk_threshold_block ≤
        (analyze_login_risk cfg dist isNormalTime state user_id
          login_info).score →
      (analyze_login_risk cfg dist isNormalTime state user_id
        login_info).action = RiskAction.Block) := by
  have ha : (analyze_login_risk cfg dist isNormalTime state user_id
      login_info).action =
      actionForScore cfg
        (analyze_login_risk cfg dist isNormalTime state user_id
          login_info).score := rfl
  rw [ha]
  unfold actionForScore
  refine ⟨fun h1 => ?_, fun h1 h2 => ?_, fun h1 => ?_⟩ <;>
    split_ifs <;> first | rfl | omega

/-- Witness for C3 at the default configuration and a concrete cold-start
input whose score is 0. -/
theorem analyze_action_thresholds_witness :
    defaultRiskConfig.risk_threshold_mfa ≤
        defaultRiskConfig.risk_threshold_block ∧
      (((analyze_login_risk defaultRiskConfig (fun _ _ => 0) (fun _ _ => true)
            ⟨[], []⟩ "u" ⟨0, "ip", none, "dev", "ua", true⟩).score <
          defaultRiskConfig.risk_threshold_mfa →
        (analyze_login_risk defaultRiskConfig (fun _ _ => 0) (fun _ _ => true)
          ⟨[], []⟩ "u" ⟨0, "ip", none, "dev", "ua", true⟩).action =
          RiskAction.Allow) ∧
      (defaultRiskConfig.risk_threshold_mfa ≤
          (analyze_login_risk defaultRiskConfig (fun _ _ => 0) (fun _ _ => true)
            ⟨[], []⟩ "u" ⟨0, "ip", none, "dev", "ua", true⟩).score →
        (analyze_login_risk defaultRiskConfig (fun _ _ => 0) (fun _ _ => true)
            ⟨[], []⟩ "u" ⟨0, "ip", none, "dev", "ua", true⟩).score <
          defaultRiskConfig.risk_threshold_block →
        (analyze_login_risk defaultRiskConfig (fun _ _ => 0) (fun _ _ => true)
          ⟨[], []⟩ "u" ⟨0, "ip", none, "dev", "ua", true⟩).action =
          RiskAction.RequireMfa) ∧
      (defaultRiskConfig.risk_threshold_block ≤
          (analyze_login_risk defaultRiskConfig (fun _ _ => 0) (fun _ _ => true)
            ⟨[], []⟩ "u" ⟨0, "ip", none, "dev", "ua", true⟩).score →
        (analyze_login_risk defaultRiskConfig (fun _ _ => 0) (fun _ _ => true)
          ⟨[], []⟩ "u" ⟨0, "ip", none, "dev", "ua", true⟩).action =
          RiskAction.Block)) :=
  ⟨by decide,
    analyze_action_thresholds defaultRiskConfig (fun _ _ => 0) (fun _ _ => true)
      ⟨[], []⟩ "u" ⟨0, "ip", none, "dev", "ua", true⟩ (by decide)⟩

/-- C4: a user with standing (permanently enabled) MFA never receives an
effective action weaker than RequireMfa from the login flow: the effective
action is always Block or RequireMfa, never Allow, regardless of the score. -/
theorem login_mfa_enabled_policy_floor (cfg : RiskConfig)
    (dist : GeoLocation → GeoLocation → ℚ)
    (isNormalTime : ℤ → List LoginRecord → Bool) (state : RiskScoringState)
    (user_id : String) (login_info : LoginRecord) :
    login_effective_action cfg dist isNormalTime state user_id true login_info =
        RiskAction.Block ∨
      login_effective_action cfg dist isNormalTime state user_id true
        login_info = RiskAction.RequireMfa := by
  unfold login_effective_action
  by_cases hb :
    (should_block_login cfg dist isNormalTime state user_id login_info).1
  · simp [hb]
  · simp [hb]

lemma analyze_factors_nonempty (cfg : RiskConfig)
    (dist : GeoLocation → GeoLocation → ℚ)
    (isNormalTime : ℤ → List LoginRecord → Bool) (state : RiskScoringState)
    (user_id : String) (login_info : LoginRecord) (h : List LoginRecord)
    (hh : alistLookup state.login_history user_id = some h) (hne : h ≠ []) :
    (analyze_login_risk cfg dist isNormalTime state user_id login_info).factors =
      riskFactorsOf cfg dist isNormalTime h login_info := by
  have hf : (analyze_login_risk cfg dist isNormalTime state user_id
      login_info).factors =
      match alistLookup state.login_history user_id with
      | some history =>
        if history.isEmpty then []
        else riskFactorsOf cfg dist isNormalTime history login_info
      | none => [] := rfl
  rw [hf, hh]
  simp [hne]

lemma impossible_mem_riskFactorsOf (cfg : RiskConfig)
    (dist : GeoLocation → GeoLocation → ℚ)
    (isNormalTime : ℤ → List LoginRecord → Bool) (h : List LoginRecord)
    (login_info : LoginRecord) (cur : GeoLocation)
    (hloc : login_info.location = some cur) :
    ("impossible_travel" ∈
        (riskFactorsOf cfg dist isNormalTime h login_info).map RiskFactor.name) ↔
      impossibleTravel dist h login_info.timestamp cur = true := by
  unfold riskFactorsOf
  rw [hloc]
  cases hkd : knownDevice h login_info <;>
    cases hkl : knownLocation dist h cur <;>
      cases hit : impossibleTravel dist h login_info.timestamp cur <;>
        cases hnt : isNormalTime login_info.timestamp h <;>
          simp_all [newDeviceFactor, newLocationFactor, impossibleTravelFactor,
            oddTimeFactor]

lemma impossibleTravel_iff (dist : GeoLocation → GeoLocation → ℚ)
    (h : List LoginRecord) (ts0 : ℤ) (cur : GeoLocation) :
    impossibleTravel dist h ts0 cur = true ↔
      ∃ ts loc, latestGeoLogin h = some (ts, loc) ∧
        0 < hoursDiff ts0 ts ∧ 1000 < dist loc cur / hoursDiff ts0 ts := by
  unfold impossibleTravel
  cases hl : latestGeoLogin h with
  | none => simp [hl]
  | some p =>
    obtain ⟨ts, loc⟩ := p
    simp only [hl, Bool.and_eq_true, decide_eq_true_eq, Option.some.injEq,
      Prod.mk.injEq]
    constructor
    · intro hp
      exact ⟨ts, loc, ⟨rfl, rfl⟩, hp⟩
    · rintro ⟨a, b, ⟨rfl, rfl⟩, hp⟩
      exact hp

/-- C5: for an attempt carrying a location and a non-empty history, the
impossible_travel factor fires if and only if the single most recent
geolocated history record implies a travel speed distance / hours strictly
greater than 1000 km/h relative to the attempt (with a positive elapsed
time). -/
theorem analyze_impossible_travel_iff (cfg : RiskConfig)
    (dist : GeoLocation → GeoLocation → ℚ)
    (isNormalTime : ℤ → List LoginRecord → Bool) (state : RiskScoringState)
    (user_id : String) (login_info : LoginRecord) (h : List LoginRecord)
    (cur : GeoLocation)
    (hh : alistLookup state.login_history user_id = some h) (hne : h ≠ [])
    (hloc : login_info.location = some cur) :
    ("impossible_travel" ∈
        (analyze_login_risk cfg dist isNormalTime state user_id
          login_info).factors.map RiskFactor.name) ↔
      ∃ ts loc, latestGeoLogin h = some (ts, loc) ∧
        0 < hoursDiff login_info.timestamp ts ∧
        1000 < dist loc cur / hoursDiff login_info.timestamp ts := by
  rw [analyze_factors_nonempty cfg dist isNormalTime state user_id login_info h
      hh hne,
    impossible_mem_riskFactorsOf cfg dist isNormalTime h login_info cur hloc,
    impossibleTravel_iff]

lemma knownLocation_iff (dist : GeoLocation → GeoLocation → ℚ)
    (h : List LoginRecord) (cur : GeoLocation) :
    knownLocation dist h cur = true ↔
      ∃ r ∈ h, ∃ loc, r.location = some loc ∧ dist loc cur < 50 := by
  unfold knownLocation
  simp only [List.any_eq_true, List.mem_filterMap, decide_eq_true_eq]
  constructor
  · rintro ⟨loc, ⟨r, hr, hrl⟩, hd⟩
    exact ⟨r, hr, loc, hrl, hd⟩
  · rintro ⟨r, hr, loc, hrl, hd⟩
    exact ⟨loc, ⟨r, hr, hrl⟩, hd⟩

lemma newLocation_mem_riskFactorsOf (cfg : RiskConfig)
    (dist : GeoLocation → GeoLocation → ℚ)
    (isNormalTime : ℤ → List LoginRecord → Bool) (h : List LoginRecord)
    (login_info : LoginRecord) (cur : GeoLocation)
    (hloc : login_info.location = some cur) :
    ("new_location" ∈
        (riskFactorsOf cfg dist isNormalTime h login_info).map RiskFactor.name) ↔
      knownLocation dist h cur = false := by
  unfold riskFactorsOf
  rw [hloc]
  cases hkd : knownDevice h login_info <;>
    cases hkl : knownLocation dist h cur <;>
      cases hit : impossibleTravel dist h login_info.timestamp cur <;>
        cases hnt : isNormalTime login_info.timestamp h <;>
          simp_all [newDeviceFactor, newLocationFactor, impossibleTravelFactor,
            oddTimeFactor]

lemma newLocation_not_mem_of_no_location (cfg : RiskConfig)
    (dist : GeoLocation → GeoLocation → ℚ)
    (isNormalTime : ℤ → List LoginRecord → Bool) (h : List LoginRecord)
    (login_info : LoginRecord) (hloc : login_info.location = none) :
    "new_location" ∉
      (riskFactorsOf cfg dist isNormalTime h login_info).map RiskFactor.name := by
  unfold riskFactorsOf
  rw [hloc]
  split_ifs <;>
    simp_all [newDeviceFactor, newLocationFactor, impossibleTravelFactor,
      oddTimeFactor]

/-- C6: for a non-empty history, when the attempt carries a location the
new_location factor fires if and only if no historical record has a location
within 50 km of it, and when the attempt carries no location the factor never
fires. -/
theorem analyze_new_location_iff (cfg : RiskConfig)
    (dist : GeoLocation → GeoLocation → ℚ)
    (isNormalTime : ℤ → List LoginRecord → Bool) (state : RiskScoringState)
    (user_id : String) (login_info : LoginRecord) (h : List LoginRecord)
    (hh : alistLookup state.login_history user_id = some h) (hne : h ≠ []) :
    (∀ cur, login_info.location = some cur →
      (("new_location" ∈
          (analyze_login_risk cfg dist isNormalTime state user_id
            login_info).factors.map RiskFactor.name) ↔
        ¬ ∃ r ∈ h, ∃ loc, r.location = some loc ∧ dist loc cur < 50)) ∧
    (login_info.location = none →
      "new_location" ∉
        (analyze_login_risk cfg dist isNormalTime state user_id
          login_info).factors.map RiskFactor.name) := by
  rw [analyze_factors_nonempty cfg dist isNormalTime state user_id login_info h
      hh hne]
  constructor
  · intro cur hcur
    rw [newLocation_mem_riskFactorsOf cfg dist isNormalTime h login_info cur
        hcur,
      ← knownLocation_iff dist h cur]
    simp
  · intro hnone
    exact newLocation_not_mem_of_no_location cfg dist isNormalTime h login_info
      hnone

/-- C10: when the most recent geolocated history record is not strictly
earlier than the attempt (elapsed hours ≤ 0), the impossible_travel factor
does not fire: the positivity guard on the elapsed time rejects out-of-order
or simultaneous timestamps before any speed quotient matters. -/
theorem analyze_no_travel_factor_nonpositive_elapsed (cfg : RiskConfig)
    (dist : GeoLocation → GeoLocation → ℚ)
    (isNormalTime : ℤ → List LoginRecord → Bool) (state : RiskScoringState)
    (user_id : String) (login_info : LoginRecord) (h : List LoginRecord)
    (cur : GeoLocation) (ts : ℤ) (loc : GeoLocation)
    (hh : alistLookup state.login_history user_id = some h) (hne : h ≠ [])
    (hloc : login_info.location = some cur)
    (hlatest : latestGeoLogin h = some (ts, loc))
    (hts : login_info.timestamp ≤ ts) :
    "impossible_travel" ∉
      (analyze_login_risk cfg dist isNormalTime state user_id
        login_info).factors.map RiskFactor.name := by
  rw [analyze_impossible_travel_iff cfg dist isNormalTime state user_id
      login_info h cur hh hne hloc]
  rintro ⟨ts2, loc2, hl2, hpos, hgt⟩
  rw [hlatest] at hl2
  obtain ⟨hts2, hloc2⟩ := Prod.mk.injEq .. ▸ Option.some.inj hl2
  subst hts2
  unfold hoursDiff at hpos
  have h36 : (0 : ℚ) < 3600 := by norm_num
  have hx : (0 : ℚ) * 3600 < ((login_info.timestamp - ts : ℤ) : ℚ) :=
    (lt_div_iff₀ h36).mp hpos
  rw [zero_mul] at hx
  have hz : (0 : ℤ) < login_info.timestamp - ts := by exact_mod_cast hx
  omega

lemma riskFactorsOf_eq_filterMap (cfg : RiskConfig)
    (dist : GeoLocation → GeoLocation → ℚ)
    (isNormalTime : ℤ → List LoginRecord → Bool) (h : List LoginRecord)
    (login_info : LoginRecord) :
    riskFactorsOf cfg dist isNormalTime h login_info =
      [check_new_device cfg h login_info,
       check_new_location cfg dist h login_info,
       check_impossible_travel cfg dist h login_info,
       check_odd_time cfg isNormalTime h login_info].filterMap id := by
  unfold riskFactorsOf check_new_device check_new_location
    check_impossible_travel check_odd_time
  cases hl : login_info.location with
  | none =>
    cases hkd : knownDevice h login_info <;>
      cases hnt : isNormalTime login_info.timestamp h <;>
        simp [hkd, hnt, List.filterMap_cons]
  | some cur =>
    cases hkd : knownDevice h login_info <;>
      cases hkl : knownLocation dist h cur <;>
        cases hit : impossibleTravel dist h login_info.timestamp cur <;>
          cases hnt : isNormalTime login_info.timestamp h <;>
            simp [hkd, hkl, hit, hnt, List.filterMap_cons]

/-- C9: the sequential analysis of src/docs/endpoints.md and the parallel
analysis of src/docs/performance_optimizations.md produce identical results
(the same factor list, score, and action) for every history and attempt, with
the thresholds sanely ordered and the MFA threshold positive as in the
default configuration. -/
theorem analyze_sequential_eq_parallel (cfg : RiskConfig)
    (dist : GeoLocation → GeoLocation → ℚ)
    (isNormalTime : ℤ → List LoginRecord → Bool) (state : RiskScoringState)
    (user_id : String) (login_info : LoginRecord)
    (hmfa : 0 < cfg.risk_threshold_mfa)
    (hord : cfg.risk_threshold_mfa ≤ cfg.risk_threshold_block) :
    analyze_login_risk cfg dist isNormalTime state user_id login_info =
      analyze_login_risk_parallel cfg dist isNormalTime state user_id
        login_info := by
  unfold analyze_login_risk analyze_login_risk_parallel
  cases hl : alistLookup state.login_history user_id with
  | none => simp [actionForScore_zero cfg hmfa hord]
  | some h =>
    cases hhe : h.isEmpty with
    | true => simp [hhe, actionForScore_zero cfg hmfa hord]
    | false =>
      simp only [hhe, Bool.false_eq_true, if_false,
        riskFactorsOf_eq_filterMap cfg dist isNormalTime h login_info,
        score_if_isEmpty]

/-- Witness for C9 at the default configuration and a concrete non-empty
history: the two implementations return the same result. -/
theorem analyze_sequential_eq_parallel_witness :
    0 < defaultRiskConfig.risk_threshold_mfa ∧
      analyze_login_risk defaultRiskConfig (fun _ _ => 0) (fun _ _ => true)
          ⟨[("u", [⟨0, "ip", none, "d1", "ua", true⟩])], []⟩ "u"
          ⟨3600, "ip", none, "d2", "ua", true⟩ =
        analyze_login_risk_parallel defaultRiskConfig (fun _ _ => 0)
          (fun _ _ => true) ⟨[("u", [⟨0, "ip", none, "d1", "ua", true⟩])], []⟩
          "u" ⟨3600, "ip", none, "d2", "ua", true⟩ :=
  ⟨by decide,
    analyze_sequential_eq_parallel defaultRiskConfig (fun _ _ => 0)
      (fun _ _ => true) ⟨[("u", [⟨0, "ip", none, "d1", "ua", true⟩])], []⟩ "u"
      ⟨3600, "ip", none, "d2", "ua", true⟩ (by decide) (by decide)⟩

lemma alistLookup_pushRecord_same (l : List (String × List LoginRecord))
    (user_id : String) (record : LoginRecord) :
    alistLookup (pushRecord l user_id record) user_id =
      some ((alistLookup l user_id).getD [] ++ [record]) := by
  induction l with
  | nil => simp [pushRecord, alistLookup]
  | cons p rest ih =>
    obtain ⟨k, h⟩ := p
    by_cases hk : k = user_id
    · subst hk
      simp [pushRecord, alistLookup]
    · simp only [pushRecord, alistLookup, if_neg hk]
      exact ih

lemma snapshot_record_login (state : RiskScoringState) (user_id : String)
    (record : LoginRecord) :
    snapshot (record_login state user_id record) user_id =
      snapshot state user_id ++ [record] := by
  unfold snapshot record_login
  rw [alistLookup_pushRecord_same]
  rfl

/-- A record used as the default element for positional indexing. -/
def defaultLoginRecord : LoginRecord := ⟨0, "", none, "", "", false⟩

/-- The record r occupies a position in l consistent with timestamp order:
every record before it has a timestamp at most r's, every record after it a
timestamp at least r's. -/
def inTimestampOrder (l : List LoginRecord) (r : LoginRecord) : Prop :=
  ∃ i, i < l.length ∧ l.getD i defaultLoginRecord = r ∧
    ∀ j, j < l.length →
      (j < i → (l.getD j defaultLoginRecord).timestamp ≤ r.timestamp) ∧
      (i < j → r.timestamp ≤ (l.getD j defaultLoginRecord).timestamp)

/-- C8 as amended: append(r) followed by snapshot for that user includes r —
as the last element — and, when r's timestamp is at least every timestamp
already in the user's history (the in-order case the counterexample excludes),
r's position is consistent with timestamp order. -/
theorem append_snapshot_ordered (state : RiskScoringState) (user_id : String)
    (record : LoginRecord)
    (hle : ∀ x ∈ snapshot state user_id, x.timestamp ≤ record.timestamp) :
    record ∈ snapshot (record_login state user_id record) user_id ∧
      snapshot (record_login state user_id record) user_id =
        snapshot state user_id ++ [record] ∧
      inTimestampOrder (snapshot (record_login state user_id record) user_id)
        record := by
  have hsr := snapshot_record_login state user_id record
  refine ⟨by rw [hsr]; simp, hsr, ?_⟩
  rw [hsr]
  refine ⟨(snapshot state user_id).length, by simp, ?_, ?_⟩
  · rw [List.getD_eq_getElem?_getD, List.getElem?_append_right le_rfl]
    simp
  · intro j hj
    simp only [List.length_append, List.length_cons, List.length_nil] at hj
    constructor
    · intro hji
      rw [List.getD_append _ _ _ _ hji]
      have hmem : (snapshot state user_id).getD j defaultLoginRecord ∈
          snapshot state user_id := by
        rw [List.getD_eq_getElem _ _ hji]
        exact List.getElem_mem hji
      exact hle _ hmem
    · intro hij
      omega

/-- A history record with timestamp 7200, used to exhibit an out-of-order
append. -/
def c8Old : LoginRecord := ⟨7200, "ip1", none, "d1", "ua", true⟩

/-- A record with timestamp 0, older than the stored history. -/
def c8New : LoginRecord := ⟨0, "ip2", none, "d2", "ua", true⟩

/-- A state whose user u already has the newer record in history. -/
def c8State : RiskScoringState := ⟨[("u", [c8Old])], []⟩

/-- Counterexample to C8 as stated: appending a record whose timestamp is
older than the stored history places it at the end of the snapshot, where its
position is not consistent with timestamp order (its predecessor has a larger
timestamp). -/
theorem append_snapshot_order_counterexample :
    c8New ∈ snapshot (record_login c8State "u" c8New) "u" ∧
      ¬ inTimestampOrder (snapshot (record_login c8State "u" c8New) "u")
        c8New := by
  have hsnap : snapshot (record_login c8State "u" c8New) "u" =
      [c8Old, c8New] := by decide
  constructor
  · rw [hsnap]
    decide
  · rw [hsnap]
    rintro ⟨i, hi, hg, hord⟩
    simp only [List.length_cons, List.length_nil] at hi
    interval_cases i
    · exact absurd hg (by decide)
    · exact absurd ((hord 0 (by decide)).1 (by omega)) (by decide)

/-- Witness for the amended C8 at a user with no prior history: the appended
record is present and in timestamp-consistent position. -/
theorem append_snapshot_ordered_witness :
    (∀ x ∈ snapshot (⟨[], []⟩ : RiskScoringState) "u",
        x.timestamp ≤ (⟨5, "ip", none, "d", "ua", true⟩ : LoginRecord).timestamp) ∧
      ((⟨5, "ip", none, "d", "ua", true⟩ : LoginRecord) ∈
          snapshot
            (record_login ⟨[], []⟩ "u" ⟨5, "ip", none, "d", "ua", true⟩) "u" ∧
        snapshot (record_login ⟨[], []⟩ "u" ⟨5, "ip", none, "d", "ua", true⟩)
            "u" =
          snapshot (⟨[], []⟩ : RiskScoringState) "u" ++
            [⟨5, "ip", none, "d", "ua", true⟩] ∧
        inTimestampOrder
          (snapshot (record_login ⟨[], []⟩ "u" ⟨5, "ip", none, "d", "ua", true⟩)
            "u")
          ⟨5, "ip", none, "d", "ua", true⟩) :=
  ⟨by decide,
    append_snapshot_ordered ⟨[], []⟩ "u" ⟨5, "ip", none, "d", "ua", true⟩
      (by decide)⟩

/-- An attempt from a new device with no location data. -/
def c7Attempt : LoginRecord := ⟨3600, "ip", none, "d2", "ua", true⟩

/-- A state where user u has a non-empty history and the identity
alice at example.com has accumulated 10 failed attempts. -/
def c7State : RiskScoringState :=
  ⟨[("u", [⟨0, "ip", none, "d1", "ua", false⟩])],
    [("alice@example.com", ⟨10, 0⟩)]⟩

/-- C7 failing input: the failed-attempt counter stands at 10 — above any
modest threshold such as 5 — while the analysis of the same state emits only
the new_device factor; analyze_login_risk never consults the counter and no
excessive_failures factor exists anywhere in the implementation. -/
theorem excessive_failures_never_emitted :
    get_failed_attempts c7State "alice@example.com" = 10 ∧
      5 < get_failed_attempts c7State "alice@example.com" ∧
      (analyze_login_risk defaultRiskConfig (fun _ _ => 0) (fun _ _ => true)
          c7State "u" c7Attempt).factors.map RiskFactor.name = ["new_device"] ∧
      "excessive_failures" ∉
        (analyze_login_risk defaultRiskConfig (fun _ _ => 0) (fun _ _ => true)
          c7State "u" c7Attempt).factors.map RiskFactor.name := by
  refine ⟨by decide, by decide, by decide, by decide⟩

/-- Witness for C5 at a concrete geolocated history, an attempt one hour
later, and a constant 2000 km distance function. -/
theorem analyze_impossible_travel_iff_witness :
    ([(⟨0, "ip", some ⟨0, 0, "c", "c"⟩, "d1", "ua", true⟩ : LoginRecord)] ≠
        []) ∧
      (("impossible_travel" ∈
          (analyze_login_risk defaultRiskConfig (fun _ _ => 2000)
            (fun _ _ => true)
            ⟨[("u", [⟨0, "ip", some ⟨0, 0, "c", "c"⟩, "d1", "ua", true⟩])], []⟩
            "u"
            ⟨3600, "ip", some ⟨1, 1, "c", "c"⟩, "d2", "ua",
              true⟩).factors.map RiskFactor.name) ↔
        ∃ ts loc,
          latestGeoLogin
              [⟨0, "ip", some ⟨0, 0, "c", "c"⟩, "d1", "ua", true⟩] =
              some (ts, loc) ∧
            0 < hoursDiff 3600 ts ∧
            1000 < (2000 : ℚ) / hoursDiff 3600 ts) :=
  ⟨by decide,
    analyze_impossible_travel_iff defaultRiskConfig (fun _ _ => 2000)
      (fun _ _ => true)
      ⟨[("u", [⟨0, "ip", some ⟨0, 0, "c", "c"⟩, "d1", "ua", true⟩])], []⟩ "u"
      ⟨3600, "ip", some ⟨1, 1, "c", "c"⟩, "d2", "ua", true⟩
      [⟨0, "ip", some ⟨0, 0, "c", "c"⟩, "d1", "ua", true⟩] ⟨1, 1, "c", "c"⟩
      rfl (by decide) rfl⟩

/-- Witness for C6 at a concrete geolocated history and a constant 2000 km
distance function. -/
theorem analyze_new_location_iff_witness :
    ([(⟨0, "ip", some ⟨0, 0, "c", "c"⟩, "d1", "ua", true⟩ : LoginRecord)] ≠
        []) ∧
      ((∀ cur,
          (⟨3600, "ip", some ⟨1, 1, "c", "c"⟩, "d2", "ua",
              true⟩ : LoginRecord).location = some cur →
          (("new_location" ∈
              (analyze_login_risk defaultRiskConfig (fun _ _ => 2000)
                (fun _ _ => true)
                ⟨[("u",
                    [⟨0, "ip", some ⟨0, 0, "c", "c"⟩, "d1", "ua", true⟩])],
                  []⟩
                "u"
                ⟨3600, "ip", some ⟨1, 1, "c", "c"⟩, "d2", "ua",
                  true⟩).factors.map RiskFactor.name) ↔
            ¬ ∃ r ∈ [(⟨0, "ip", some ⟨0, 0, "c", "c"⟩, "d1", "ua",
                true⟩ : LoginRecord)],
                ∃ loc, r.location = some loc ∧ (2000 : ℚ) < 50)) ∧
        ((⟨3600, "ip", some ⟨1, 1, "c", "c"⟩, "d2", "ua",
            true⟩ : LoginRecord).location = none →
          "new_location" ∉
            (analyze_login_risk defaultRiskConfig (fun _ _ => 2000)
              (fun _ _ => true)
              ⟨[("u", [⟨0, "ip", some ⟨0, 0, "c", "c"⟩, "d1", "ua", true⟩])],
                []⟩
              "u"
              ⟨3600, "ip", some ⟨1, 1, "c", "c"⟩, "d2", "ua",
                true⟩).factors.map RiskFactor.name)) :=
  ⟨by decide,
    analyze_new_location_iff defaultRiskConfig (fun _ _ => 2000)
      (fun _ _ => true)
      ⟨[("u", [⟨0, "ip", some ⟨0, 0, "c", "c"⟩, "d1", "ua", true⟩])], []⟩ "u"
      ⟨3600, "ip", some ⟨1, 1, "c", "c"⟩, "d2", "ua", true⟩
      [⟨0, "ip", some ⟨0, 0, "c", "c"⟩, "d1", "ua", true⟩] rfl (by decide)⟩

/-- Witness for C10 at a geolocated history record dated after the attempt:
the impossible_travel factor does not fire. -/
theorem analyze_no_travel_factor_nonpositive_elapsed_witness :
    ([(⟨7200, "ip", some ⟨0, 0, "c", "c"⟩, "d1", "ua", true⟩ : LoginRecord)] ≠
        []) ∧
      latestGeoLogin [⟨7200, "ip", some ⟨0, 0, "c", "c"⟩, "d1", "ua", true⟩] =
        some (7200, ⟨0, 0, "c", "c"⟩) ∧
      "impossible_travel" ∉
        (analyze_login_risk defaultRiskConfig (fun _ _ => 2000)
          (fun _ _ => true)
          ⟨[("u", [⟨7200, "ip", some ⟨0, 0, "c", "c"⟩, "d1", "ua", true⟩])],
            []⟩
          "u"
          ⟨3600, "ip", some ⟨1, 1, "c", "c"⟩, "d2", "ua",
            true⟩).factors.map RiskFactor.name :=
  ⟨by decide, by decide,
    analyze_no_travel_factor_nonpositive_elapsed defaultRiskConfig
      (fun _ _ => 2000) (fun _ _ => true)
      ⟨[("u", [⟨7200, "ip", some ⟨0, 0, "c", "c"⟩, "d1", "ua", true⟩])], []⟩
      "u" ⟨3600, "ip", some ⟨1, 1, "c", "c"⟩, "d2", "ua", true⟩
      [⟨7200, "ip", some ⟨0, 0, "c", "c"⟩, "d1", "ua", true⟩] ⟨1, 1, "c", "c"⟩
      7200 ⟨0, 0, "c", "c"⟩ rfl (by decide) rfl (by decide) (by decide)⟩

end BetterAuth
